import Mathlib

/-!
Shallow embedding of the ochothon control-loop code and proofs about it.

Sources embedded:
* src/images/watcher/resources/watcher.py  (health state machine, churn
  detection, end-of-period publishing, `PublishDictWrapper`)
* src/images/scaler/resources/scaler.py    (threshold policy `simplescale`,
  rate-averaged policy `proxyscale`)
* src/images/portal/resources/toolset/toolset/commands/reset.py
  (`_Automation.run`, `_Tool.body`)

Machine integers are modelled as `Nat`/`Int` (Python ints are unbounded);
Python float comparisons between small integers and halved integers are
modelled over `ℚ` (exact for these magnitudes); code that raises a Python
exception is modelled with `Except String`.
-/

/-! ### Watcher: health state machine (watcher.py, `watch`, lines 189-232) -/

/-- Activity classification stored in a group's health record
(the strings 'stable' / 'active' / 'stagnant' / 'absent' in watcher.py). -/
inductive Activity where
  | stable
  | active
  | stagnant
  | absent
deriving DecidableEq, Repr

/-- One group's record in `store_health[cluster]`: keys 'remaining',
'activity', 'up', 'down' (watcher.py lines 196, 228-232, 241).
`remaining` is an `Int` because the source decrements it with no floor. -/
structure HealthRecord where
  remaining : Int
  activity : Activity
  up : Nat
  down : Nat
deriving DecidableEq, Repr

/-- Up/down counts derived from one poll for one group
(`curr_health[name]`, watcher.py lines 137-145). -/
structure HealthObs where
  up : Nat
  down : Nat
deriving DecidableEq, Repr

/-- The elif chain of watcher.py lines 199-232, updating a known group's
record from the current poll's up/down counts.  Every branch finishes by
storing the observed `down` and `up` (lines 231-232). -/
def healthStep (checks : Nat) (r : HealthRecord) (h : HealthObs) : HealthRecord :=
  if h.down = 0 ∧ h.up = r.up then
    -- lines 201-203: healthy and stable
    { r with activity := .stable, up := h.up, down := h.down }
  else if h.down = 0 then
    -- lines 208-214: healthy but changed; remaining reset to checks
    { remaining := (checks : Int), activity := .active, up := h.up, down := h.down }
  else if h.up ≠ r.up ∨ h.down ≠ r.down then
    -- lines 219-221: unhealthy but changing
    { r with activity := .active, up := h.up, down := h.down }
  else
    -- lines 226-229: unhealthy and unchanged; decrement with no floor
    { remaining := r.remaining - 1, activity := .stagnant, up := h.up, down := h.down }

/-- First observation of a group (watcher.py line 196 followed by
lines 231-232). -/
def healthInit (checks : Nat) (h : HealthObs) : HealthRecord :=
  { remaining := (checks : Int), activity := .stagnant, up := h.up, down := h.down }

/-- The record stored for a group entirely absent from the current poll
(watcher.py line 241). -/
def absentRecord : HealthRecord :=
  { remaining := 0, activity := .absent, up := 0, down := 0 }

/-- What one sub-iteration of the polling loop delivers for one group:
either its up/down counts, or the fact that it vanished from the poll. -/
inductive Obs where
  | seen (h : HealthObs)
  | gone
deriving DecidableEq, Repr

/-- The successive states of one group's health record over the
sub-iterations of one polling period (watcher.py lines 91-245).  A `gone`
observation zeroes the record (line 241) and then the loop dies: the
`'#%d to None' % (str(...))` on line 243 raises `TypeError`, which
propagates out of the `while` loop, so no further update ever happens
(see `absentStep` below).  The trace therefore ends there. -/
def periodStates (checks : Nat) (r : HealthRecord) : List Obs → List HealthRecord
  | [] => [r]
  | .seen h :: rest => r :: periodStates checks (healthStep checks r h) rest
  | .gone :: _ => [r, absentRecord]

/-! ### Theorems for claim C4 -/

/-- Claim C4 counterexample: with `checks = 3`, a record whose `remaining`
is 1 and whose previous `up` is 2, observed healthy with the same `up`
(`down = 0`, `up = 2`), is classified STABLE but its `remaining` stays 1:
it is not reset to the configured 3.  The claim's "resets its
remainingChecks counter to the configured checks value" is false. -/
theorem healthStep_stable_no_reset_counterexample :
    healthStep 3 ⟨1, .active, 2, 0⟩ ⟨2, 0⟩ = ⟨1, .stable, 2, 0⟩ ∧ (1 : Int) ≠ 3 := by
  constructor
  · rfl
  · decide

/-- Claim C4 (amended): on a poll where a group's `down` is 0 and its `up`
equals the stored `up`, the state machine sets activity to STABLE and
leaves `remaining` unchanged; the reset of `remaining` to the configured
checks value happens only in the healthy-but-changed ACTIVE branch. -/
theorem healthStep_stable_keeps_remaining (checks : Nat) (r : HealthRecord) :
    healthStep checks r ⟨r.up, 0⟩ = { r with activity := .stable, up := r.up, down := 0 } := by
  simp [healthStep]

/-! ### Theorems for claim C3 -/

/-- The health update either keeps `remaining`, resets it to `checks`, or
decrements it by one. -/
theorem healthStep_remaining_cases (checks : Nat) (r : HealthRecord) (h : HealthObs) :
    (healthStep checks r h).remaining = r.remaining ∨
    (healthStep checks r h).remaining = (checks : Int) ∨
    (healthStep checks r h).remaining = r.remaining - 1 := by
  unfold healthStep
  split_ifs <;> simp

/-- Upper bound: starting at or below `checks`, `remaining` never exceeds
`checks` during a period. -/
theorem periodStates_remaining_le (checks : Nat) :
    ∀ (obs : List Obs) (r : HealthRecord), r.remaining ≤ (checks : Int) →
      ∀ s ∈ periodStates checks r obs, s.remaining ≤ (checks : Int) := by
  intro obs
  induction obs with
  | nil =>
      intro r hr s hs
      simp [periodStates] at hs
      simpa [hs] using hr
  | cons e rest ih =>
      intro r hr s hs
      cases e with
      | seen h =>
          simp [periodStates] at hs
          rcases hs with hs | hs
          · simpa [hs] using hr
          · refine ih (healthStep checks r h) ?_ s hs
            rcases healthStep_remaining_cases checks r h with hc | hc | hc <;> omega
      | gone =>
          simp [periodStates] at hs
          rcases hs with hs | hs
          · simpa [hs] using hr
          · simp [hs, absentRecord]

/-- Lower bound: during a period of `obs.length` sub-iterations, `remaining`
stays at or above `min (start - length) (min (checks - length) 0)`. -/
theorem periodStates_remaining_lb (checks : Nat) :
    ∀ (obs : List Obs) (r : HealthRecord),
      ∀ s ∈ periodStates checks r obs,
        min (r.remaining - obs.length) (min ((checks : Int) - obs.length) 0) ≤ s.remaining := by
  intro obs
  induction obs with
  | nil =>
      intro r s hs
      simp [periodStates] at hs
      simp [hs]
  | cons e rest ih =>
      intro r s hs
      have hlen : ((e :: rest).length : Int) = (rest.length : Int) + 1 := by
        simp
      cases e with
      | seen h =>
          simp [periodStates] at hs
          rcases hs with hs | hs
          · rw [hlen, hs]
            omega
          · have := ih (healthStep checks r h) s hs
            rcases healthStep_remaining_cases checks r h with hc | hc | hc <;>
              · rw [hlen]
                omega
      | gone =>
          simp [periodStates] at hs
          rcases hs with hs | hs
          · rw [hlen, hs]
            omega
          · rw [hlen, hs]
            simp [absentRecord]

/-- Claim C3 counterexample: with `checks = 3`, a group known from the
previous period with stored counts `up = 1, down = 2` whose poll snapshot
stays unchanged through all `checks + 1 = 4` sub-iterations of the period
is decremented four times from 3, and its record reaches
`remaining = -1 < 0`: the stored counter does become negative, refuting
`0 ≤ remainingChecks`. -/
theorem watcher_remaining_negative_counterexample :
    (⟨-1, .stagnant, 1, 2⟩ : HealthRecord) ∈
      periodStates 3 ⟨3, .stagnant, 1, 2⟩
        [.seen ⟨1, 2⟩, .seen ⟨1, 2⟩, .seen ⟨1, 2⟩, .seen ⟨1, 2⟩] ∧
    (-1 : Int) < 0 := by
  decide

/-- Claim C3 (amended): for every group at every point during a polling
period, `-1 ≤ remainingChecks ≤ checksConfigured`.  A period starts with
`remaining = checks` (initial store, lazy creation, and the end-of-period
reset all set it to `checks`), performs at most `checks + 1`
sub-iterations, each of which keeps, resets, zeroes (absent) or decrements
the counter by one, so it can reach `-1` (see the counterexample) but
never less. -/
theorem watcher_remaining_bounds (checks : Nat) (r : HealthRecord) (obs : List Obs)
    (hr : r.remaining = (checks : Int)) (hlen : obs.length ≤ checks + 1) :
    ∀ s ∈ periodStates checks r obs, -1 ≤ s.remaining ∧ s.remaining ≤ (checks : Int) := by
  intro s hs
  have hub := periodStates_remaining_le checks obs r (le_of_eq hr) s hs
  have hlb := periodStates_remaining_lb checks obs r s hs
  have hc : ((obs.length : Int)) ≤ (checks : Int) + 1 := by
    exact_mod_cast hlen
  refine ⟨?_, hub⟩
  omega

/-- Claim C3 witness: the amended bound applied to the concrete stagnant
trace with `checks = 3`, at the final state of the period. -/
theorem watcher_remaining_bounds_witness :
    -1 ≤ (⟨-1, .stagnant, 1, 2⟩ : HealthRecord).remaining ∧
      (⟨-1, .stagnant, 1, 2⟩ : HealthRecord).remaining ≤ ((3 : Nat) : Int) :=
  watcher_remaining_bounds 3 ⟨3, .stagnant, 1, 2⟩
    [.seen ⟨1, 2⟩, .seen ⟨1, 2⟩, .seen ⟨1, 2⟩, .seen ⟨1, 2⟩]
    (by decide) (by decide) _ (by decide)

/-! ### Watcher: end-of-period publishing (watcher.py lines 247-265), claim C2 -/

/-- The payload attached to a 'health' publish entry: the record minus its
'remaining' key (watcher.py lines 255-258, `del(health['remaining'])`
followed by `publish.insert(cluster, name, 'health', dict(health))`). -/
structure HealthDetail where
  up : Nat
  down : Nat
  activity : Activity
deriving DecidableEq, Repr

/-- End-of-period processing of one cluster's `store_health` entries
(watcher.py lines 251-263).  The executed guard is `if 'remaining' in
health:` — the intended condition `not health['remaining'] > 0` is left
commented out on line 255 — and every record carries the 'remaining' key
(every branch that touches a record stores it), so the guard is always
true: a 'health' event is published for EVERY known group, and every
record's `remaining` is then reset to `checks`. -/
def endOfPeriod (checks : Nat) (stored : List (String × HealthRecord)) :
    List (String × HealthDetail) × List (String × HealthRecord) :=
  (stored.map (fun nr => (nr.1, ⟨nr.2.up, nr.2.down, nr.2.activity⟩)),
   stored.map (fun nr => (nr.1, { nr.2 with remaining := (checks : Int) })))

/-- Claim C2: with `checks = 3`, a group whose `remaining` is still 3 > 0
at the end of the period (it was healthy and stable all along)
nevertheless gets a 'health' event published for it — the code's guard
`if 'remaining' in health` is always true, so the commented-out
`remaining == 0` filter the claim describes is not applied; the reset of
`remaining` to `checks` does happen.  This evaluates the code at the
failing input for the code_bug verdict. -/
theorem watcher_publishes_despite_positive_remaining :
    endOfPeriod 3 [("g", ⟨3, .stable, 2, 0⟩)] =
      ([("g", ⟨2, 0, .stable⟩)], [("g", ⟨3, .stable, 2, 0⟩)]) ∧
    (0 : Int) < 3 := by
  constructor
  · rfl
  · decide

/-! ### Watcher: vanished group handling (watcher.py lines 237-243), claim C5 -/

/-- A Python value handed to a `%`-format specifier. -/
inductive PyVal where
  | int (n : Int)
  | str (s : String)
deriving DecidableEq, Repr

/-- Python 2 semantics of applying the `%d` conversion to a value: an
`int` renders, a `str` raises `TypeError: %d format: a number is
required, not str`. -/
def pyFormatD : PyVal → Except String String
  | .int n => .ok (toString n)
  | .str _ => .error "%d format: a number is required, not str"

/-- Handling of a previously-known group entirely absent from the current
poll (watcher.py lines 237-243), given the indices stored for it in
`store_indeces[cluster][name]` (always a non-empty list, so
`sorted(...)[0]` is its minimum; the `getD 0` default is never used).
The record is zeroed (line 241) and a 'lost_indeces' event is inserted
(line 242); line 243 then evaluates
`'#%d to None' % (str(sorted(store_indeces[cluster][name])[0]))`, i.e.
`%d` applied to a `str`, which raises `TypeError`.  String detail of the
lost event: `', '.join(map(str, store_indeces[cluster][name]))`. -/
def absentStep (storedIdx : List Nat) :
    Except String (HealthRecord × List (String × String)) :=
  let r := absentRecord
  let ev1 := ("lost_indeces", String.intercalate ", " (storedIdx.map toString))
  match pyFormatD (.str (toString (storedIdx.min?.getD 0))) with
  | .error e => .error e
  | .ok s => .ok (r, [ev1, ("changed_base_index", "#" ++ s ++ " to None")])

/-- Claim C5: for every previously-known group that is absent from the
current poll, the handler raises (`%d` applied to the `str(...)`-wrapped
base index) instead of returning the two events: the `changed_base_index`
event is never emitted and the TypeError propagates out of the watch
loop.  This evaluates the code at the failing input for the code_bug
verdict. -/
theorem watcher_absent_group_raises (storedIdx : List Nat) :
    absentStep storedIdx = .error "%d format: a number is required, not str" :=
  rfl

/-! ### Watcher: churn detection (watcher.py lines 150-184), claim C9 -/

/-- An event published by the churn detector.  The base-change payload is
the formatted `'#%d to #%d'` pair (line 169); the lost-indices payload
carries the set `delta` itself (line 174) — the source renders it through
Python set iteration, whose order is irrelevant here. -/
inductive ChurnEvent where
  | changedBase (old new : Nat)
  | lostIndices (delta : Finset Nat)
deriving DecidableEq

/-- One churn-detection step for a known group (watcher.py lines 160-184):
`stored` is `store_indeces[cluster][name]`, `curr` the indices observed in
this poll (both always non-empty lists, so `sorted(...)[0]` is the
minimum and the `getD 0` defaults are never used).  Emits a
`changed_base_index` event when the old minimum is absent from `curr`
(lines 164-169), a `lost_indeces` event when `set(stored) - set(curr)` is
non-empty (lines 174-179), and always replaces the stored list with
`curr` (line 184). -/
def churnStep (stored curr : List Nat) : List ChurnEvent × List Nat :=
  let base := stored.min?.getD 0
  let ev1 := if base ∈ curr then [] else [ChurnEvent.changedBase base (curr.min?.getD 0)]
  let delta := stored.toFinset \ curr.toFinset
  let ev2 := if delta = ∅ then [] else [ChurnEvent.lostIndices delta]
  (ev1 ++ ev2, curr)

/-- Claim C9: churn detection is idempotent under an unchanged
observation: when the stored index list and the current one carry the
same set of indices, the step emits no event at all and stores a list
with the same index set. -/
theorem churnStep_idempotent (stored curr : List Nat)
    (hne : stored ≠ []) (hset : stored.toFinset = curr.toFinset) :
    churnStep stored curr = ([], curr) ∧ (churnStep stored curr).2.toFinset = stored.toFinset := by
  obtain ⟨b, hb⟩ : ∃ b, stored.min? = some b := by
    cases hm : stored.min? with
    | none => exact absurd (List.min?_eq_none_iff.mp hm) hne
    | some b => exact ⟨b, rfl⟩
  have hbmem : b ∈ stored := (List.min?_eq_some_iff'.mp hb).1
  have hbcurr : b ∈ curr := by
    have : b ∈ curr.toFinset := hset ▸ List.mem_toFinset.mpr hbmem
    exact List.mem_toFinset.mp this
  have hdelta : stored.toFinset \ curr.toFinset = ∅ := by
    rw [hset]
    exact Finset.sdiff_self _
  constructor
  · simp [churnStep, hb, hbcurr, hdelta]
  · simp [churnStep, hset]

/-- Claim C9 witness: the idempotence theorem applied to the concrete
stored list `[0, 1]` re-observed as `[1, 0]` (same index set). -/
theorem churnStep_idempotent_witness :
    churnStep [0, 1] [1, 0] = ([], [1, 0]) :=
  (churnStep_idempotent [0, 1] [1, 0] (by decide) (by decide)).1

/-! ### Scaler: threshold policy (scaler.py, `simplescale`, lines 241-309)
and rate-averaged policy metrics handling (`proxyscale`, lines 200-204),
claims C6 and C8 -/

/-- One pod's metrics entry as returned by the `poll` command: a Python
dict that may or may not carry the 'stressed' flag (used by
`simplescale`, line 288) and the 'threads' rate (used by `proxyscale`,
line 202).  Other keys are irrelevant to the decision logic. -/
structure Met where
  stressed : Option String
  threads : Option ℚ
deriving DecidableEq, Repr

/-- scaler.py line 288:
`stressed = sum(1 for key, item in mets.iteritems() if item['stressed'] == 'Very')`.
The subscript `item['stressed']` raises `KeyError` when the key is
missing; there is no guard and no try/except in `simplescale`, so the
whole generator — and with it the scaling loop — aborts. -/
def countStressed : List Met → Except String Nat
  | [] => .ok 0
  | m :: rest =>
    match m.stressed with
    | none => .error "KeyError: stressed"
    | some s => (countStressed rest).map (fun k => (if s = "Very" then 1 else 0) + k)

/-- The decision of scaler.py lines 294-302 given `s = stressed`,
`n = len(mets)`, and the configured `unit` and `lim` (the source fixes
`unit = 1`, `lim = 4` on lines 267-269).  `some t` means a
`scale ... -i t` query is issued; `none` means no query.  The Python
comparisons `stressed > len(mets)/2.0` and `stressed < len(mets)/2.0`
are float comparisons, exact at these magnitudes, modelled over `ℚ`. -/
def simplescaleDecide (s n unit lim : Nat) : Option Nat :=
  if (n : ℚ) / 2 < (s : ℚ) ∧ n + unit ≤ lim then some (n + unit)
  else if (s : ℚ) < (n : ℚ) / 2 ∧ unit < n then some (n - unit)
  else none

/-- One `simplescale` iteration for one cluster with successfully parsed
metrics `mets` (scaler.py lines 286-302): count the stressed pods (which
can raise, see `countStressed`) and decide the scale target. -/
def simplescaleStep (unit lim : Nat) (mets : List Met) : Except String (Option Nat) :=
  (countStressed mets).map (fun s => simplescaleDecide s mets.length unit lim)

/-- The configured scale step of `simplescale` (scaler.py line 267). -/
def simplescaleUnit : Nat := 1

/-- The configured instance cap of `simplescale` (scaler.py line 269). -/
def simplescaleLim : Nat := 4

/-- scaler.py line 202:
`threads = sum(float(item['threads']) for key, item in mets.iteritems() if 'threads' in item)`
— entries lacking the 'threads' key are excluded by the guard, so the
sum is total. -/
def threadsSum (mets : List Met) : ℚ :=
  (mets.filterMap (fun m => m.threads)).sum

/-- A metrics map of six pods, none stressed, as a counterexample input. -/
def metsSixCalm : List Met := List.replicate 6 ⟨some "Nope", none⟩

/-- Claim C6 counterexample: with the source's constants `unit = 1`,
`lim = 4` and a metrics map of six pods none of which is stressed, the
decision is DOWN with target `5`, which exceeds `maxInstances = 4`: the
claimed consequence "every issued target lies in [1, maxInstances]" is
false (the DOWN guard never compares against the cap). -/
theorem simplescale_target_above_cap_counterexample :
    simplescaleStep simplescaleUnit simplescaleLim metsSixCalm = .ok (some 5) ∧
      ¬(5 ≤ simplescaleLim) := by
  constructor
  · have h : countStressed metsSixCalm = .ok 0 := rfl
    have h2 : metsSixCalm.length = 6 := rfl
    rw [simplescaleStep, h, h2]
    show Except.ok (simplescaleDecide 0 6 simplescaleUnit simplescaleLim) = Except.ok (some 5)
    norm_num [simplescaleDecide, simplescaleUnit, simplescaleLim]
  · decide

/-- Claim C6 (amended): for every stressed count `s`, member count `n`
and limits with `1 ≤ unit`, the decision is UP with target `n + unit`
iff `s > n/2` and `n + unit ≤ lim`; DOWN with target `n - unit` iff
`s < n/2` and `n > unit`; NONE otherwise; every issued target is at
least 1 and differs from `n` by exactly `unit`, and every UP target is
at most `lim` (a DOWN target can exceed `lim` when `n` does, see the
counterexample); with `s = 3, n = 4, unit = 1, lim = 4` the decision is
NONE (scenario E: scale-up blocked by the capacity bound). -/
theorem simplescale_decision (s n unit lim : Nat) (hu : 1 ≤ unit) :
    (simplescaleDecide s n unit lim = some (n + unit) ↔
      (n : ℚ) / 2 < (s : ℚ) ∧ n + unit ≤ lim) ∧
    (simplescaleDecide s n unit lim = some (n - unit) ↔
      (s : ℚ) < (n : ℚ) / 2 ∧ unit < n) ∧
    (simplescaleDecide s n unit lim = none ↔
      ¬((n : ℚ) / 2 < (s : ℚ) ∧ n + unit ≤ lim) ∧
        ¬((s : ℚ) < (n : ℚ) / 2 ∧ unit < n)) ∧
    (∀ t, simplescaleDecide s n unit lim = some t →
      1 ≤ t ∧ (t = n + unit ∨ t = n - unit) ∧ (t = n + unit → t ≤ lim)) ∧
    simplescaleDecide 3 4 1 4 = none := by
  have hne : n - unit ≠ n + unit := by omega
  by_cases hup : (n : ℚ) / 2 < (s : ℚ) ∧ n + unit ≤ lim
  · have hnotdn : ¬((s : ℚ) < (n : ℚ) / 2 ∧ unit < n) := by
      rintro ⟨hlt, -⟩
      exact absurd (hlt.trans hup.1) (lt_irrefl _)
    refine ⟨?_, ?_, ?_, ?_, ?_⟩
    · simp [simplescaleDecide, hup]
    · simp [simplescaleDecide, hup, hnotdn]
      omega
    · simp [simplescaleDecide, hup]
    · intro t ht
      rw [simplescaleDecide, if_pos hup] at ht
      have : t = n + unit := (Option.some.inj ht).symm
      subst this
      exact ⟨by omega, Or.inl rfl, fun _ => hup.2⟩
    · norm_num [simplescaleDecide]
  · by_cases hdn : (s : ℚ) < (n : ℚ) / 2 ∧ unit < n
    · refine ⟨?_, ?_, ?_, ?_, ?_⟩
      · simp [simplescaleDecide, hup, hdn]
        omega
      · simp [simplescaleDecide, hup, hdn]
      · simp [simplescaleDecide, hup, hdn]
      · intro t ht
        rw [simplescaleDecide, if_neg hup, if_pos hdn] at ht
        have : t = n - unit := (Option.some.inj ht).symm
        subst this
        exact ⟨by omega, Or.inr rfl, fun h => absurd h hne⟩
      · norm_num [simplescaleDecide]
    · refine ⟨?_, ?_, ?_, ?_, ?_⟩
      · simp [simplescaleDecide, hup, hdn]
      · simp [simplescaleDecide, hup, hdn]
      · simp [simplescaleDecide, hup, hdn]
      · intro t ht
        rw [simplescaleDecide, if_neg hup, if_neg hdn] at ht
        exact absurd ht (by simp)
      · norm_num [simplescaleDecide]

/-- Claim C6 witness: the decision theorem applied at
`s = 3, n = 4, unit = 1, lim = 4`, extracting scenario E. -/
theorem simplescale_decision_witness :
    simplescaleDecide 3 4 1 4 = none :=
  (simplescale_decision 3 4 1 4 (by decide)).2.2.2.2

/-- Claim C8 counterexample: a metrics entry lacking the 'stressed' flag
makes `simplescale` raise a `KeyError` (scaler.py line 288 subscripts the
dict with no guard), aborting the scaling loop — the claim that a missing
field never raises is false. -/
theorem simplescale_missing_field_raises_counterexample :
    simplescaleStep simplescaleUnit simplescaleLim [⟨none, none⟩] =
      .error "KeyError: stressed" :=
  rfl

/-- Claim C8 (amended): the rate-averaged policy (`proxyscale`) excludes
a metrics entry lacking the 'threads' rate from the per-repetition sum
without raising (the guard `if 'threads' in item` on scaler.py line 202);
the threshold policy (`simplescale`), by contrast, raises a `KeyError`
on an entry lacking the 'stressed' flag, aborting the cycle. -/
theorem proxyscale_excludes_missing_threads (m : Met) (mets : List Met)
    (hm : m.threads = none) :
    threadsSum (m :: mets) = threadsSum mets ∧
      (m.stressed = none →
        ∀ unit lim, simplescaleStep unit lim (m :: mets) = .error "KeyError: stressed") := by
  constructor
  · simp [threadsSum, List.filterMap_cons, hm]
  · intro hs unit lim
    simp [simplescaleStep, countStressed, hs, Except.map]

/-- Claim C8 witness: the amended theorem applied to the entry with both
fields missing, in front of the empty metrics map. -/
theorem proxyscale_excludes_missing_threads_witness :
    threadsSum [⟨none, none⟩] = threadsSum ([] : List Met) ∧
      simplescaleStep simplescaleUnit simplescaleLim [⟨none, none⟩] =
        .error "KeyError: stressed" := by
  have h := proxyscale_excludes_missing_threads ⟨none, none⟩ [] rfl
  exact ⟨h.1, h.2 rfl simplescaleUnit simplescaleLim⟩

/-! ### Reset coordinator (reset.py, `_Automation.run` and `_Tool.body`),
claims C1 and C7 -/

/-- One pod's reply to a fan-out phase: the dict entry
`key -> (seq, body, code)` of `fire(...)` (the body plays no role in the
collection logic and is elided). -/
structure Reply where
  key : String
  seq : Nat
  code : Nat
deriving DecidableEq, Repr

/-- reset.py lines 50/56/62:
`[seq for _, (seq, _, code) in replies.items() if code == 200]` — the
sequence numbers of the pods that acknowledged a phase, in reply order. -/
def collectSeqs (replies : List Reply) : List Nat :=
  replies.filterMap (fun r => if r.code = 200 then some r.seq else none)

/-- The per-cluster outcome dict `{'ok': ..., 'reset': ...}` of
`_Automation` (reset.py lines 35-39, 66-67). -/
structure Outcome where
  ok : Bool
  reset : List Nat
deriving DecidableEq, Repr

/-- reset.py `_Automation.run` (lines 45-75): collect the acknowledging
sequence numbers of the 'control/off' phase, assert the 'reset' phase
returns the same list, assert the 'control/on' phase returns the same
list, and only then set `reset` and `ok`; a failed assertion leaves the
initial `{'ok': False, 'reset': []}` in place. -/
def automationRun (off rst onn : List Reply) : Outcome :=
  let js := collectSeqs off
  if js = collectSeqs rst then
    if js = collectSeqs onn then { ok := true, reset := js }
    else { ok := false, reset := [] }
  else { ok := false, reset := [] }

/-- Claim C1 counterexample: when all three phases return no
acknowledgement at all (three empty reply sets), both assertions hold
vacuously and the outcome is `ok = true` with `reset = []` — `ok` does
not require the common sequence set to be non-empty, refuting the
claimed "pairwise equal AND non-empty". -/
theorem automationRun_ok_on_empty_counterexample :
    automationRun [] [] [] = { ok := true, reset := [] } ∧
      collectSeqs [] = [] := by
  constructor <;> rfl

/-- Claim C1 (amended): the outcome's `ok` is true iff the 'reset' and
'power on' phases each collected exactly the same acknowledgement list
as the 'power off' phase (list equality in reply order; the lists may be
empty); when `ok` is true, `reset` equals that common list, and when
`ok` is false, `reset` is the empty list. -/
theorem automationRun_ok_iff (off rst onn : List Reply) :
    ((automationRun off rst onn).ok = true ↔
      collectSeqs off = collectSeqs rst ∧ collectSeqs off = collectSeqs onn) ∧
    ((automationRun off rst onn).ok = true →
      (automationRun off rst onn).reset = collectSeqs off) ∧
    ((automationRun off rst onn).ok = false →
      (automationRun off rst onn).reset = []) := by
  by_cases h1 : collectSeqs off = collectSeqs rst <;>
    by_cases h2 : collectSeqs off = collectSeqs onn <;>
      simp [automationRun, h1, h2] <;> split_ifs <;> simp_all

/-- Claim C1 witness: the amended equivalence applied to a single pod
with sequence number 0 acknowledging every phase. -/
theorem automationRun_ok_iff_witness :
    (automationRun [⟨"z #0", 0, 200⟩] [⟨"z #0", 0, 200⟩] [⟨"z #0", 0, 200⟩]).ok = true :=
  (automationRun_ok_iff _ _ _).1.mpr ⟨rfl, rfl⟩

/-- reset.py `_Tool.body` aggregation (lines 119-124) over the joined
per-cluster outcomes: `reset = sum(len(js['reset']))`,
`pct = (100 * sum(1 for ok)) / n if n else 0` (Python 2 integer floor
division), and the command's return value `0 if pct == 100 else 1`.
Returned as `(pct, reset, returnCode)`. -/
def bodyAgg (outcome : List Outcome) : Nat × Nat × Nat :=
  let n := outcome.length
  let reset := (outcome.map (fun js => js.reset.length)).sum
  let pct := if n = 0 then 0 else (100 * outcome.countP (fun js => js.ok)) / n
  (pct, reset, if pct = 100 then 0 else 1)

/-- Claim C7: for every non-empty list of per-cluster outcomes, the
aggregate percentage is `100 × (number with ok) / n` under floor
division, the aggregate reset count is the sum of the lengths of the
`reset` lists, and the command returns 0 iff every requested cluster's
outcome has `ok = true` (floor division cannot make a partial success
reach 100). -/
theorem bodyAgg_spec (outcome : List Outcome) (hne : outcome ≠ []) :
    (bodyAgg outcome).1 = (100 * outcome.countP (fun js => js.ok)) / outcome.length ∧
    (bodyAgg outcome).2.1 = (outcome.map (fun js => js.reset.length)).sum ∧
    ((bodyAgg outcome).2.2 = 0 ↔ ∀ o ∈ outcome, o.ok = true) := by
  have hn : outcome.length ≠ 0 := fun h => hne (List.length_eq_zero.mp h)
  have hpos : 0 < outcome.length := Nat.pos_of_ne_zero hn
  have hcount : outcome.countP (fun js => js.ok) ≤ outcome.length :=
    List.countP_le_length _
  refine ⟨by simp [bodyAgg, hn], by simp [bodyAgg], ?_⟩
  have hpct : (bodyAgg outcome).2.2 = 0 ↔
      (100 * outcome.countP (fun js => js.ok)) / outcome.length = 100 := by
    simp only [bodyAgg, hn, if_false]
    split_ifs with h
    · simp [h]
    · simp [h]
  rw [hpct]
  constructor
  · intro h
    have hle : outcome.length ≤ outcome.countP (fun js => js.ok) := by
      by_contra hlt
      push_neg at hlt
      have hdiv : (100 * outcome.countP (fun js => js.ok)) / outcome.length < 100 :=
        Nat.div_lt_of_lt_mul (by omega)
      omega
    intro o ho
    simpa using List.countP_eq_length.mp (le_antisymm hcount hle) o ho
  · intro hall
    have heq : outcome.countP (fun js => js.ok) = outcome.length :=
      List.countP_eq_length.mpr (fun o ho => by simpa using hall o ho)
    rw [heq, Nat.mul_comm, Nat.mul_div_cancel_left _ hpos]

/-- Claim C7 witness: the aggregation theorem applied to the singleton
outcome list with one successful cluster that reset pods 0 and 1:
percentage 100, reset count 2, return code 0. -/
theorem bodyAgg_spec_witness :
    (bodyAgg [{ ok := true, reset := [0, 1] }]).2.2 = 0 :=
  (bodyAgg_spec [{ ok := true, reset := [0, 1] }] (by simp)).2.2.mpr (by decide)

/-! ### PublishDictWrapper (watcher.py lines 29-45), claim C10 -/

/-- A Python dict modelled as an association list in insertion order; the
first occurrence of a key is authoritative. -/
def dget {α : Type} : List (String × α) → String → Option α
  | [], _ => none
  | (k', v) :: t, k => if k' = k then some v else dget t k

/-- Python dict assignment `d[k] = v`: replace the first binding of `k`,
or append a new one. -/
def dset {α : Type} : List (String × α) → String → α → List (String × α)
  | [], k, v => [(k, v)]
  | (k', v') :: t, k, v => if k' = k then (k, v) :: t else (k', v') :: dset t k v

/-- The innermost dict of the publish report: issue type -> diagnosis. -/
abbrev IssueMap := List (String × String)

/-- One cluster's publish sub-dict: group name -> issue map. -/
abbrev NameMap := List (String × IssueMap)

/-- `PublishDictWrapper.publish`: cluster pattern -> name map.  Built in
`__init__` with one (empty) entry per watched cluster (watcher.py
line 33). -/
abbrev Publish := List (String × NameMap)

/-- watcher.py lines 35-41, `PublishDictWrapper.insert`:
`self.publish[cluster]` raises `KeyError` (modelled as `none`) when
`cluster` is not a key; otherwise the name sub-dict is created empty on
first use and `publish[cluster][name][issue] = diagnosis` is stored. -/
def Publish.insert (p : Publish) (cluster name issue diagnosis : String) : Option Publish :=
  match dget p cluster with
  | none => none
  | some nm =>
    let im := (dget nm name).getD []
    some (dset p cluster (dset nm name (dset im issue diagnosis)))

/-- Reading one diagnosis out of the report:
`publish[c][n][i]`, `none` when any level is missing. -/
def lookup3 (p : Publish) (c n i : String) : Option String :=
  (dget p c).bind fun nm => (dget nm n).bind fun im => dget im i

/-- Setting a key makes it readable. -/
theorem dget_dset_self {α : Type} (l : List (String × α)) (k : String) (v : α) :
    dget (dset l k v) k = some v := by
  induction l with
  | nil => simp [dget, dset]
  | cons hd t ih =>
      obtain ⟨k', v'⟩ := hd
      by_cases h : k' = k
      · simp [dget, dset, h]
      · simp [dget, dset, h, ih]

/-- Setting a key leaves every other key's binding unchanged. -/
theorem dget_dset_ne {α : Type} (l : List (String × α)) (k k' : String) (v : α)
    (h : k' ≠ k) : dget (dset l k v) k' = dget l k' := by
  have hne : ¬(k = k') := fun hk => h hk.symm
  induction l with
  | nil =>
      simp only [dset, dget]
      exact if_neg hne
  | cons hd t ih =>
      obtain ⟨k'', v'⟩ := hd
      by_cases h2 : k'' = k
      · subst h2
        simp only [dset, dget, if_pos]
        rw [if_neg hne, if_neg hne]
      · simp only [dset, dget]
        rw [if_neg h2]
        simp only [dget]
        split_ifs <;> simp [ih]

/-- Claim C10: for every report state and every
`insert(cluster, name, issue, diagnosis)` with `cluster` among the
report's keys (i.e. among the watched clusters, so the subscript does
not raise), the updated report maps `(cluster, name, issue)` to the new
diagnosis — overwriting whatever was there — and every other
`(cluster', name', issue')` triple reads exactly as before; so the
published report holds at most one diagnosis per group per issue type,
the most recently inserted one. -/
theorem publish_insert_frame (p p' : Publish) (c n i d : String)
    (h : Publish.insert p c n i d = some p') :
    lookup3 p' c n i = some d ∧
    ∀ c' n' i', ¬(c' = c ∧ n' = n ∧ i' = i) →
      lookup3 p' c' n' i' = lookup3 p c' n' i' := by
  cases hc : dget p c with
  | none => simp [Publish.insert, hc] at h
  | some nm =>
    have hp' : p' = dset p c (dset nm n (dset ((dget nm n).getD []) i d)) := by
      rw [Publish.insert, hc] at h
      exact (Option.some.inj h).symm
    subst hp'
    constructor
    · rw [lookup3, dget_dset_self]
      simp only [Option.some_bind]
      rw [dget_dset_self]
      simp only [Option.some_bind]
      exact dget_dset_self _ _ _
    · intro c' n' i' hne
      by_cases hcc : c' = c
      · subst hcc
        by_cases hnn : n' = n
        · subst hnn
          have hii : i' ≠ i := fun hi => hne ⟨rfl, rfl, hi⟩
          rw [lookup3, lookup3, dget_dset_self, hc]
          simp only [Option.some_bind]
          rw [dget_dset_self]
          simp only [Option.some_bind]
          rw [dget_dset_ne _ _ _ _ hii]
          cases hn : dget nm n' with
          | none => simp [hn, dget]
          | some im => simp [hn]
        · rw [lookup3, lookup3, dget_dset_self, hc]
          simp only [Option.some_bind]
          rw [dget_dset_ne _ _ _ _ hnn]
      · rw [lookup3, lookup3, dget_dset_ne _ _ _ _ hcc]

/-- Claim C10 witness: inserting a 'health' diagnosis for group "g" into
the fresh report for watched cluster "c1" stores it, and reading a
different issue type for the same group is unchanged (still absent). -/
theorem publish_insert_frame_witness :
    lookup3 [("c1", [("g", [("health", "bad")])])] "c1" "g" "health" = some "bad" ∧
      lookup3 [("c1", [("g", [("health", "bad")])])] "c1" "g" "lost" =
        lookup3 [("c1", [])] "c1" "g" "lost" := by
  have h := publish_insert_frame [("c1", [])] [("c1", [("g", [("health", "bad")])])]
    "c1" "g" "health" "bad" (by rfl)
  exact ⟨h.1, h.2 "c1" "g" "lost" (by simp)⟩
